import Mathlib

/-!
Verification development for the tg-bot relay and session engine
(source: src/main.py).

The shallow embedding below translates the session registry (the
pending / active / banned user sets mirrored in memory and written
through to SQLite), the admin command handlers, the identity
correlation table keyed by (chat_id, message_id), the token bucket,
and the retrying safe_copy forwarding primitive.

Modelling conventions:
* user ids, chat ids and message ids are Int (opaque numeric ids);
* time is Rat; token counts are Int;
* every SQLite write that a handler awaits is given an explicit
  Bool outcome parameter (true = the write succeeded, false = the
  thread raised); a raised write makes the handler propagate the
  exception, which we model as Except.error persistFail, with the
  memory state exactly as the code left it at the raise point;
* reads of the banned cache are modelled as reads of the banned
  field (the code consults banned_users_cache first);
* the replies a handler sends to its own caller are counted; the
  various status texts a handler replies with are mapped to the
  constructors of RegResp.
-/

/-- Status values that the handlers report back to their caller via
reply texts, collapsed to an enumeration. -/
inductive RegResp where
  | accepted
  | alreadyActive
  | alreadyPending
  | bannedResp
  | canceled
  | notPending
  | connected
  | rejectedResp
  | ended
  | notActive
  | bannedDone
  | unbanned
deriving DecidableEq, Repr

/-- Failure of an awaited SQLite write (the asyncio.to_thread call
raised); the handler stops at that point and the exception
propagates. -/
inductive PFail where
  | persistFail
deriving DecidableEq, Repr

/-- A key on the admin side of the correlation table: the pair
(chat_id, message_id) of a message copied to an admin surface,
exactly as in admin_msgid_to_user (src/main.py line 67). -/
abbrev MsgKey := Int × Int

/-- The mutable global state of src/main.py:
pending_requests, active_sessions, banned_users_cache (lines 75-77),
admin_msgid_to_user (line 67), user_last_admin_msgid (line 69) and
numeric_admin_ids (line 72).  The dictionaries are modelled as
association lists where the most recent binding is consed in front,
which has the same lookup semantics as Python dict assignment. -/
structure BotSt where
  pending : Finset Int
  active : Finset Int
  banned : Finset Int
  adminMap : List (MsgKey × Int)
  userLast : List (Int × Int)
  numericAdmins : Finset Int
deriving DecidableEq

/-- ADMIN_IDS from src/main.py line 45. -/
def ADMIN_IDS : Finset Int := {8348390173}

/-- ADMIN_USERNAMES from src/main.py line 47. -/
def ADMIN_USERNAMES : List String := ["ap114514666"]

/-- The state at process start before any event: all sets empty
except the configured numeric admin ids (lines 67-77). -/
def initSt : BotSt :=
  { pending := ∅
    active := ∅
    banned := ∅
    adminMap := []
    userLast := []
    numericAdmins := ADMIN_IDS }

/-- Translated from the user_apply branch of callback_query_handler
(src/main.py lines 512-527): banned check via db_is_banned, then
under state_lock the active and pending checks, then
pending_requests.add, then the awaited db_add_pending write whose
outcome is okAdd.  A failed write leaves the freshly inserted
membership in memory (the code mutates memory first and has no
rollback). -/
def user_apply (u : Int) (okAdd : Bool) (s : BotSt) :
    Except PFail RegResp × BotSt :=
  if u ∈ s.banned then (.ok .bannedResp, s)
  else if u ∈ s.active then (.ok .alreadyActive, s)
  else if u ∈ s.pending then (.ok .alreadyPending, s)
  else
    let s' := { s with pending := insert u s.pending }
    if okAdd then (.ok .accepted, s') else (.error .persistFail, s')

/-- Translated from the user_cancel branch of callback_query_handler
(src/main.py lines 529-542): under state_lock, if pending then
discard and await db_remove_pending (outcome okRemove), else report
that no request exists, with no mutation. -/
def user_cancel (u : Int) (okRemove : Bool) (s : BotSt) :
    Except PFail RegResp × BotSt :=
  if u ∈ s.pending then
    let s' := { s with pending := s.pending.erase u }
    if okRemove then (.ok .canceled, s') else (.error .persistFail, s')
  else (.ok .notPending, s)

/-- Translated from the admin_accept branch of callback_query_handler
(src/main.py lines 602-625): if the user is pending, discard from
pending and add to active in one state_lock critical section, then
await db_remove_pending (okRemove) and db_add_active (okAdd); either
failed write propagates after the memory mutation already happened. -/
def admin_accept (u : Int) (okRemove okAdd : Bool) (s : BotSt) :
    Except PFail RegResp × BotSt :=
  if u ∈ s.pending then
    let s' := { s with pending := s.pending.erase u
                       active := insert u s.active }
    if !okRemove then (.error .persistFail, s')
    else if !okAdd then (.error .persistFail, s')
    else (.ok .connected, s')
  else (.ok .notPending, s)

/-- Translated from the admin_reject branch of callback_query_handler
(src/main.py lines 627-644): if pending, discard and await
db_remove_pending (okRemove); otherwise report not pending. -/
def admin_reject (u : Int) (okRemove : Bool) (s : BotSt) :
    Except PFail RegResp × BotSt :=
  if u ∈ s.pending then
    let s' := { s with pending := s.pending.erase u }
    if okRemove then (.ok .rejectedResp, s') else (.error .persistFail, s')
  else (.ok .notPending, s)

/-- Translated from the body of connect_cmd after the admin gate and
argument parse (src/main.py lines 382-394): banned check, then under
state_lock discard from pending and add to active, then await
db_remove_pending (okRemove) and db_add_active (okAdd). -/
def connect_op (u : Int) (okRemove okAdd : Bool) (s : BotSt) :
    Except PFail RegResp × BotSt :=
  if u ∈ s.banned then (.ok .bannedResp, s)
  else
    let s' := { s with pending := s.pending.erase u
                       active := insert u s.active }
    if !okRemove then (.error .persistFail, s')
    else if !okAdd then (.error .persistFail, s')
    else (.ok .connected, s')

/-- Translated from the admin_end branch of callback_query_handler
(src/main.py lines 646-663) and the identical core of end_cmd (lines
407-417) and user_end (lines 544-557): under state_lock, if active
then discard and await db_remove_active (okRemove). -/
def end_op (u : Int) (okRemove : Bool) (s : BotSt) :
    Except PFail RegResp × BotSt :=
  if u ∈ s.active then
    let s' := { s with active := s.active.erase u }
    if okRemove then (.ok .ended, s') else (.error .persistFail, s')
  else (.ok .notActive, s)

/-- Translated from the body of ban_cmd after the admin gate and
argument parse (src/main.py lines 430-440) and the identical
admin_ban branch (lines 665-682): first await db_ban (okBan) which on
success also adds to banned_users_cache, then under state_lock
discard from pending and active, then await db_remove_pending
(okRemovePend) and db_remove_active (okRemoveAct).  If db_ban itself
raises, nothing has been mutated yet; failures of the two removals
happen after every memory mutation. -/
def ban_op (u : Int) (okBan okRemovePend okRemoveAct : Bool) (s : BotSt) :
    Except PFail RegResp × BotSt :=
  if !okBan then (.error .persistFail, s)
  else
    let s' := { s with banned := insert u s.banned
                       pending := s.pending.erase u
                       active := s.active.erase u }
    if !okRemovePend then (.error .persistFail, s')
    else if !okRemoveAct then (.error .persistFail, s')
    else (.ok .bannedDone, s')

/-- Translated from the body of unban_cmd after the admin gate and
argument parse (src/main.py line 453): await db_unban (okUnban) which
on success discards from banned_users_cache. -/
def unban_op (u : Int) (okUnban : Bool) (s : BotSt) :
    Except PFail RegResp × BotSt :=
  if !okUnban then (.error .persistFail, s)
  else (.ok .unbanned, { s with banned := s.banned.erase u })

/-- One registry operation together with the outcomes of the SQLite
writes it awaits, for reasoning about arbitrary event sequences. -/
inductive RegOp where
  | userApply (u : Int) (ok : Bool)
  | userCancel (u : Int) (ok : Bool)
  | adminAccept (u : Int) (ok1 ok2 : Bool)
  | adminReject (u : Int) (ok : Bool)
  | connectC (u : Int) (ok1 ok2 : Bool)
  | endC (u : Int) (ok : Bool)
  | banC (u : Int) (ok1 ok2 ok3 : Bool)
  | unbanC (u : Int) (ok : Bool)
deriving DecidableEq, Repr

/-- The state reached after one registry operation (the second
component of the corresponding handler). -/
def stepOp (op : RegOp) (s : BotSt) : BotSt :=
  match op with
  | .userApply u ok => (user_apply u ok s).2
  | .userCancel u ok => (user_cancel u ok s).2
  | .adminAccept u ok1 ok2 => (admin_accept u ok1 ok2 s).2
  | .adminReject u ok => (admin_reject u ok s).2
  | .connectC u ok1 ok2 => (connect_op u ok1 ok2 s).2
  | .endC u ok => (end_op u ok s).2
  | .banC u ok1 ok2 ok3 => (ban_op u ok1 ok2 ok3 s).2
  | .unbanC u ok => (unban_op u ok s).2

/-- The state reached after a sequence of registry operations. -/
def runOps (ops : List RegOp) (s : BotSt) : BotSt :=
  ops.foldl (fun t op => stepOp op t) s

/-- Translated from username_is_admin (src/main.py lines 265-268):
a username is an admin name when its lowercase form is among the
lowercased ADMIN_USERNAMES; a missing username is never an admin. -/
def username_is_admin (uname : Option String) : Bool :=
  match uname with
  | none => false
  | some n => (ADMIN_USERNAMES.map String.toLower).contains n.toLower

/-- Translated from is_admin_update (src/main.py lines 270-276): the
caller is an admin when its numeric id is in numeric_admin_ids or
its username passes username_is_admin. -/
def is_admin_update (s : BotSt) (uid : Int) (uname : Option String) : Bool :=
  decide (uid ∈ s.numericAdmins) || username_is_admin uname

/-- One admin command invocation, with the pre-parsed integer
argument (none models a missing or non-numeric argument, both of
which the handlers answer with a usage reply) and the outcomes of
the SQLite writes and the notify-the-user send it performs. -/
inductive AdminCmd where
  | connectCmd (arg : Option Int) (ok1 ok2 notifyOk : Bool)
  | endCmd (arg : Option Int) (ok : Bool)
  | banCmd (arg : Option Int) (ok1 ok2 ok3 : Bool)
  | unbanCmd (arg : Option Int) (ok : Bool)
  | listCmd
  | sendCmd
  | broadcastCmd
deriving DecidableEq, Repr

/-- Dispatch of the admin command handlers connect_cmd, end_cmd,
ban_cmd, unban_cmd, list_cmd, send_cmd, broadcast_cmd (src/main.py
lines 371-500).  Every handler starts with
`if not is_admin_update(update): return`, so a non-admin caller gets
no reply and no state change.  The returned Nat counts the replies
sent to the calling chat; each usage, error, status or warning
reply_text counts one.  For connect_cmd, a failed notification of
the user adds the warning reply (line 394); db failures raise before
the success reply is sent.  send_cmd and broadcast_cmd never touch
the registry sets and always answer the admin exactly once. -/
def runAdminCmd (uid : Int) (uname : Option String) (cmd : AdminCmd)
    (s : BotSt) : BotSt × Nat :=
  if !is_admin_update s uid uname then (s, 0)
  else
    match cmd with
    | .connectCmd arg ok1 ok2 notifyOk =>
        match arg with
        | none => (s, 1)
        | some u =>
            let r := connect_op u ok1 ok2 s
            match r.1 with
            | .error _ => (r.2, 0)
            | .ok .bannedResp => (r.2, 1)
            | .ok _ => (r.2, if notifyOk then 1 else 2)
    | .endCmd arg ok =>
        match arg with
        | none => (s, 1)
        | some u =>
            let r := end_op u ok s
            match r.1 with
            | .error _ => (r.2, 0)
            | .ok _ => (r.2, 1)
    | .banCmd arg ok1 ok2 ok3 =>
        match arg with
        | none => (s, 1)
        | some u =>
            let r := ban_op u ok1 ok2 ok3 s
            match r.1 with
            | .error _ => (r.2, 0)
            | .ok _ => (r.2, 1)
    | .unbanCmd arg ok =>
        match arg with
        | none => (s, 1)
        | some u =>
            let r := unban_op u ok s
            match r.1 with
            | .error _ => (r.2, 0)
            | .ok _ => (r.2, 1)
    | .listCmd => (s, 1)
    | .sendCmd => (s, 1)
    | .broadcastCmd => (s, 1)

/-- Recording one correlation entry, translated from
`admin_msgid_to_user[(copied.chat.id, copied.message_id)] = sender_id`
(src/main.py line 735): a Python dict assignment, modelled by consing
the new binding in front (lookups see the newest binding first,
matching dict overwrite semantics). -/
def recordMapping (m : List (MsgKey × Int)) (k : MsgKey) (u : Int) :
    List (MsgKey × Int) :=
  (k, u) :: m

/-- Resolving a correlation entry, translated from the lookup
`if key in admin_msgid_to_user: admin_msgid_to_user[key]`
(src/main.py lines 704-705). -/
def resolveMapping (m : List (MsgKey × Int)) (k : MsgKey) : Option Int :=
  (m.find? (fun e => e.1 == k)).map (fun e => e.2)

/-- Translated from the active-user path of message_relay_handler
(src/main.py lines 726-752): try each admin destination in order;
copyRes gives, per destination, the (chat_id, message_id) of the
copy when safe_copy succeeds there, or none when it raises.  On the
first success, record the correlation entry and the last admin-side
message id for the sender, and stop; the Bool reports whether any
destination succeeded. -/
def relay_user_message (copyRes : Int → Option MsgKey) (sender : Int) :
    List Int → BotSt → Bool × BotSt
  | [], s => (false, s)
  | a :: rest, s =>
      match copyRes a with
      | some k =>
          (true, { s with adminMap := recordMapping s.adminMap k sender
                          userLast := (sender, k.2) :: s.userLast })
      | none => relay_user_message copyRes sender rest s

/-- Translated from the admin reply path of message_relay_handler
(src/main.py lines 699-717): look the replied-to key up in
admin_msgid_to_user; when found, safe_copy the admin message to that
user (copyOk false models the copy raising, in which case the admin
is told the send failed); the first component is the user the
message was forwarded to, if any.  Note the path consults only the
correlation table: it performs no banned or active check on the
target. -/
def relay_admin_reply (s : BotSt) (replyKey : MsgKey) (copyOk : Bool)
    (copiedId : Int) : Option Int × BotSt :=
  match resolveMapping s.adminMap replyKey with
  | none => (none, s)
  | some target =>
      if copyOk then
        (some target, { s with userLast := (target, copiedId) :: s.userLast })
      else (none, s)

/-- COPY_BUCKET_CAPACITY from src/main.py lines 53-54 (the token
count is an integer in the code: it starts at the capacity and is
changed only by integer amounts). -/
def COPY_BUCKET_CAPACITY : Int := 5

/-- COPY_BUCKET_FILL_RATE from src/main.py lines 53-55, as a rational
since it multiplies the elapsed time. -/
def COPY_BUCKET_FILL_RATE : ℚ := 5

/-- The token bucket state: _bucket_tokens and _bucket_last from
src/main.py lines 84-85, with time as a rational. -/
structure Bucket where
  tokens : Int
  last : ℚ
deriving DecidableEq

/-- Translated from _refill_bucket (src/main.py lines 279-288):
compute the elapsed time; if nothing elapsed, return; compute
add = elapsed * fill rate; when add >= 1, add int(add) tokens capped
at the capacity and advance the last-refill timestamp, otherwise
leave the bucket untouched.  Python int() on the positive float add
is truncation, i.e. the floor. -/
def refill_bucket (b : Bucket) (now : ℚ) : Bucket :=
  if now - b.last ≤ 0 then b
  else if 1 ≤ (now - b.last) * COPY_BUCKET_FILL_RATE then
    { tokens := min COPY_BUCKET_CAPACITY
        (b.tokens + ⌊(now - b.last) * COPY_BUCKET_FILL_RATE⌋)
      last := now }
  else b

/-- Outcome of one provider msg.copy call inside safe_copy: a
delivered copy with its destination-side (chat_id, message_id), a
RetryAfter signal carrying retry_after seconds, or another
TelegramError. -/
inductive CopyOutcome where
  | delivered (chatId msgId : Int)
  | throttle (retryAfterSecs : ℚ)
  | telegramErr
deriving DecidableEq

/-- How safe_copy fails: the final RuntimeError after the retry loop
is exhausted, or the re-raise of a TelegramError on the last
attempt. -/
inductive CopyFail where
  | exhausted
  | telegramRaise
deriving DecidableEq, Repr

/-- Observable events of one safe_copy run: a sleep of a given
duration in seconds, or one provider delivery call. -/
inductive Ev where
  | sleepEv (d : ℚ)
  | provCall
deriving DecidableEq

/-- The sleep duration 0.2 + attempt * 0.1 seconds used by safe_copy
both after a failed token acquisition and after a non-throttle
TelegramError (src/main.py lines 305 and 317). -/
def backoff (attempt : ℕ) : ℚ :=
  1 / 5 + attempt * (1 / 10)

/-- Whether an event is a provider delivery call. -/
def isProvCall : Ev → Bool
  | .provCall => true
  | _ => false

/-- Translated from the loop body of safe_copy (src/main.py lines
301-318).  acq gives the result of acquire_copy_token at each
attempt and prov the outcome of the msg.copy call at each attempt;
attempt is the loop index, the second numeral the remaining
iterations.  Per iteration: on failed acquisition sleep the backoff,
then call the provider; on delivery return it; on RetryAfter sleep
retry_after + 0.5 and continue; on another TelegramError re-raise if
this was the last attempt, else sleep the backoff and continue.
When the loop ends, raise the RuntimeError. -/
def safe_copy_go (acq : ℕ → Bool) (prov : ℕ → CopyOutcome)
    (retries : ℕ) : ℕ → ℕ → Except CopyFail (Int × Int) × List Ev
  | _, 0 => (.error .exhausted, [])
  | attempt, r + 1 =>
      let pre : List Ev :=
        if acq attempt then [.provCall]
        else [.sleepEv (backoff attempt), .provCall]
      match prov attempt with
      | .delivered c m => (.ok (c, m), pre)
      | .throttle ra =>
          let rest := safe_copy_go acq prov retries (attempt + 1) r
          (rest.1, pre ++ .sleepEv (ra + 1 / 2) :: rest.2)
      | .telegramErr =>
          if attempt = retries - 1 then (.error .telegramRaise, pre)
          else
            let rest := safe_copy_go acq prov retries (attempt + 1) r
            (rest.1, pre ++ .sleepEv (backoff attempt) :: rest.2)

/-- safe_copy (src/main.py line 301): run the retry loop from
attempt 0 with the given number of retries (the code default is 4
and every call site uses it). -/
def safe_copy (acq : ℕ → Bool) (prov : ℕ → CopyOutcome)
    (retries : ℕ) : Except CopyFail (Int × Int) × List Ev :=
  safe_copy_go acq prov retries 0 retries

/-- Mutual exclusion of two user sets: no id is in both. -/
def mutexSets (p a : Finset Int) : Prop :=
  ∀ v : Int, v ∈ p → v ∉ a

/-- Mutual exclusion of the pending and active sets of a state. -/
def MutexInv (s : BotSt) : Prop :=
  mutexSets s.pending s.active

lemma mutexSets_insert_pending {p a : Finset Int} {u : Int}
    (h : mutexSets p a) (hu : u ∉ a) : mutexSets (insert u p) a := by
  intro v hv
  rcases Finset.mem_insert.mp hv with rfl | hv'
  · exact hu
  · exact h v hv'

lemma mutexSets_erase_pending {p a : Finset Int} {u : Int}
    (h : mutexSets p a) : mutexSets (p.erase u) a := by
  intro v hv
  exact h v (Finset.mem_of_mem_erase hv)

lemma mutexSets_erase_active {p a : Finset Int} {u : Int}
    (h : mutexSets p a) : mutexSets p (a.erase u) := by
  intro v hv hva
  exact h v hv (Finset.mem_of_mem_erase hva)

lemma mutexSets_move {p a : Finset Int} {u : Int}
    (h : mutexSets p a) : mutexSets (p.erase u) (insert u a) := by
  intro v hv hva
  have hvne : v ≠ u := (Finset.mem_erase.mp hv).1
  rcases Finset.mem_insert.mp hva with rfl | hv'
  · exact hvne rfl
  · exact h v (Finset.mem_of_mem_erase hv) hv'

lemma mutexSets_erase_both {p a : Finset Int} {u : Int}
    (h : mutexSets p a) : mutexSets (p.erase u) (a.erase u) := by
  intro v hv hva
  exact h v (Finset.mem_of_mem_erase hv) (Finset.mem_of_mem_erase hva)

lemma stepOp_preserves_mutex (op : RegOp) (s : BotSt)
    (h : MutexInv s) : MutexInv (stepOp op s) := by
  cases op with
  | userApply u ok =>
      simp only [stepOp, user_apply]
      split_ifs with hb ha hp hok
      · exact h
      · exact h
      · exact h
      · exact mutexSets_insert_pending h ha
      · exact mutexSets_insert_pending h ha
  | userCancel u ok =>
      simp only [stepOp, user_cancel]
      split_ifs with hp hok
      · exact mutexSets_erase_pending h
      · exact mutexSets_erase_pending h
      · exact h
  | adminAccept u ok1 ok2 =>
      simp only [stepOp, admin_accept]
      split_ifs with hp h1 h2
      · exact mutexSets_move h
      · exact mutexSets_move h
      · exact mutexSets_move h
      · exact h
  | adminReject u ok =>
      simp only [stepOp, admin_reject]
      split_ifs with hp hok
      · exact mutexSets_erase_pending h
      · exact mutexSets_erase_pending h
      · exact h
  | connectC u ok1 ok2 =>
      simp only [stepOp, connect_op]
      split_ifs with hb h1 h2
      · exact h
      · exact mutexSets_move h
      · exact mutexSets_move h
      · exact mutexSets_move h
  | endC u ok =>
      simp only [stepOp, end_op]
      split_ifs with ha hok
      · exact mutexSets_erase_active h
      · exact mutexSets_erase_active h
      · exact h
  | banC u ok1 ok2 ok3 =>
      simp only [stepOp, ban_op]
      split_ifs with h1 h2 h3
      · exact h
      · exact mutexSets_erase_both h
      · exact mutexSets_erase_both h
      · exact mutexSets_erase_both h
  | unbanC u ok =>
      simp only [stepOp, unban_op]
      split_ifs with h1
      · exact h
      · exact h

lemma runOps_preserves_mutex (ops : List RegOp) (s : BotSt)
    (h : MutexInv s) : MutexInv (runOps ops s) := by
  induction ops generalizing s with
  | nil => exact h
  | cons op rest ih =>
      exact ih (stepOp op s) (stepOp_preserves_mutex op s h)

lemma initSt_mutex : MutexInv initSt := by
  intro u hu
  simp [initSt] at hu

lemma relay_admin_reply_fst (s : BotSt) (k : MsgKey) (cOk : Bool)
    (cid : Int) :
    (relay_admin_reply s k cOk cid).1 =
      if cOk then resolveMapping s.adminMap k else none := by
  rcases h : resolveMapping s.adminMap k with _ | t <;>
    cases cOk <;> simp [relay_admin_reply, h]

lemma countP_pre (b : Bool) (a : ℕ) :
    List.countP isProvCall
      (if b then [Ev.provCall]
       else [Ev.sleepEv (backoff a), Ev.provCall]) = 1 := by
  cases b <;> rfl

lemma countP_sleep_cons (d : ℚ) (l : List Ev) :
    List.countP isProvCall (Ev.sleepEv d :: l) =
      List.countP isProvCall l := by
  simp [List.countP_cons, isProvCall]

lemma safe_copy_go_always_throttle (acq : ℕ → Bool)
    (prov : ℕ → CopyOutcome) (retries : ℕ) (ra : ℚ)
    (h : ∀ n, prov n = .throttle ra) :
    ∀ r attempt : ℕ,
      (safe_copy_go acq prov retries attempt r).1 =
        Except.error CopyFail.exhausted ∧
      List.countP isProvCall (safe_copy_go acq prov retries attempt r).2 =
        r := by
  intro r
  induction r with
  | zero => exact fun attempt => ⟨rfl, rfl⟩
  | succ n ih =>
      intro attempt
      have hp := h attempt
      constructor
      · simp only [safe_copy_go, hp]
        exact (ih (attempt + 1)).1
      · simp only [safe_copy_go, hp]
        rw [List.countP_append, countP_pre, countP_sleep_cons,
          (ih (attempt + 1)).2]
        omega

lemma safe_copy_go_calls_le (acq : ℕ → Bool) (prov : ℕ → CopyOutcome)
    (retries : ℕ) :
    ∀ r attempt : ℕ,
      List.countP isProvCall (safe_copy_go acq prov retries attempt r).2 ≤
        r := by
  intro r
  induction r with
  | zero => exact fun attempt => Nat.le_refl 0
  | succ n ih =>
      intro attempt
      cases hp : prov attempt with
      | delivered c m =>
          simp only [safe_copy_go, hp]
          rw [countP_pre]
          omega
      | throttle ra =>
          simp only [safe_copy_go, hp]
          rw [List.countP_append, countP_pre, countP_sleep_cons]
          have := ih (attempt + 1)
          omega
      | telegramErr =>
          have := ih (attempt + 1)
          simp only [safe_copy_go, hp]
          split_ifs <;>
            simp [List.countP_append, List.countP_cons, isProvCall] <;>
            omega

/-- C1: for every user id and every sequence of registry operations
(request, cancel, accept, reject, connect, end, ban, unban) applied
from the initial empty state, the id is never in the pending set and
the active set at the same observable instant. -/
theorem c1_pending_active_mutual_exclusion (ops : List RegOp) (u : Int)
    (h : u ∈ (runOps ops initSt).pending) :
    u ∉ (runOps ops initSt).active :=
  runOps_preserves_mutex ops initSt initSt_mutex u h

/-- Witness for C1 at the one-operation sequence that puts user 5
into the pending set. -/
theorem c1_pending_active_mutual_exclusion_witness :
    (5 : Int) ∈ (runOps [RegOp.userApply 5 true] initSt).pending ∧
    (5 : Int) ∉ (runOps [RegOp.userApply 5 true] initSt).active :=
  ⟨by decide,
   c1_pending_active_mutual_exclusion [RegOp.userApply 5 true] 5 (by decide)⟩

/-- C2: from any prior state, a request for contact directly after a
successful ban of the same user reports the banned status and leaves
the state, in particular the pending set, unchanged. -/
theorem c2_ban_overrides_request_contact (s : BotSt) (u : Int)
    (ok2 ok3 okReq : Bool) :
    user_apply u okReq (ban_op u true ok2 ok3 s).2 =
      (Except.ok RegResp.bannedResp, (ban_op u true ok2 ok3 s).2) := by
  have hmem : u ∈ (ban_op u true ok2 ok3 s).2.banned := by
    simp only [ban_op, Bool.not_true]
    cases ok2 <;> cases ok3 <;> simp
  simp [user_apply, hmem]

/-- C3 counterexample: with the persistence write failing, the
request-contact operation fails (the exception propagates, no
success is reported) but the in-memory pending set has already been
mutated, so the sets are not left unchanged as the claim states. -/
theorem c3_counterexample :
    (user_apply 1 false initSt).1 = Except.error PFail.persistFail ∧
    (user_apply 1 false initSt).2.pending ≠ initSt.pending := by
  refine ⟨rfl, ?_⟩
  decide

/-- C3 amended: on a persistence-gateway write failure every mutating
registry operation fails without reporting success, but the sets are
not always left unchanged.  For request-contact, accept, connect and
end-session the memory mutation is applied before the durable write
and is not rolled back, so the sets retain the mutation.  For ban,
the initial ban-flag write precedes any memory mutation and its
failure leaves the sets unchanged, while a failure of either of the
two subsequent removal writes happens after the memory eviction,
which is likewise not rolled back. -/
theorem c3_amended_memory_first (s : BotSt) (u : Int) (ok2 ok3 : Bool) :
    (u ∉ s.banned → u ∉ s.active → u ∉ s.pending →
      user_apply u false s =
        (Except.error PFail.persistFail,
          { s with pending := insert u s.pending })) ∧
    (u ∈ s.pending →
      admin_accept u false ok2 s =
        (Except.error PFail.persistFail,
          { s with pending := s.pending.erase u
                   active := insert u s.active }) ∧
      admin_accept u true false s =
        (Except.error PFail.persistFail,
          { s with pending := s.pending.erase u
                   active := insert u s.active })) ∧
    (u ∉ s.banned →
      connect_op u false ok2 s =
        (Except.error PFail.persistFail,
          { s with pending := s.pending.erase u
                   active := insert u s.active }) ∧
      connect_op u true false s =
        (Except.error PFail.persistFail,
          { s with pending := s.pending.erase u
                   active := insert u s.active })) ∧
    (u ∈ s.active →
      end_op u false s =
        (Except.error PFail.persistFail,
          { s with active := s.active.erase u })) ∧
    ban_op u false ok2 ok3 s = (Except.error PFail.persistFail, s) ∧
    ban_op u true false ok3 s =
      (Except.error PFail.persistFail,
        { s with banned := insert u s.banned
                 pending := s.pending.erase u
                 active := s.active.erase u }) ∧
    ban_op u true true false s =
      (Except.error PFail.persistFail,
        { s with banned := insert u s.banned
                 pending := s.pending.erase u
                 active := s.active.erase u }) :=
  ⟨fun hb ha hp => by simp [user_apply, hb, ha, hp],
   fun hp => ⟨by simp [admin_accept, hp], by simp [admin_accept, hp]⟩,
   fun hb => ⟨by simp [connect_op, hb], by simp [connect_op, hb]⟩,
   fun ha => by simp [end_op, ha],
   by simp [ban_op],
   by simp [ban_op],
   by simp [ban_op]⟩

/-- Witness for C3-amended: user 1 on the initial state for the
request, connect and ban parts, user 5 pending for the accept part,
and user 5 active for the end-session part. -/
theorem c3_amended_memory_first_witness :
    ((1 : Int) ∉ initSt.banned ∧ (1 : Int) ∉ initSt.active ∧
      (1 : Int) ∉ initSt.pending ∧
      user_apply 1 false initSt =
        (Except.error PFail.persistFail,
          { initSt with pending := insert 1 initSt.pending })) ∧
    ((5 : Int) ∈ ({ initSt with pending := {5} } : BotSt).pending ∧
      admin_accept 5 false true { initSt with pending := {5} } =
        (Except.error PFail.persistFail,
          { initSt with pending := ({5} : Finset Int).erase 5
                        active := insert 5 initSt.active }) ∧
      admin_accept 5 true false { initSt with pending := {5} } =
        (Except.error PFail.persistFail,
          { initSt with pending := ({5} : Finset Int).erase 5
                        active := insert 5 initSt.active })) ∧
    ((1 : Int) ∉ initSt.banned ∧
      connect_op 1 false true initSt =
        (Except.error PFail.persistFail,
          { initSt with pending := initSt.pending.erase 1
                        active := insert 1 initSt.active }) ∧
      connect_op 1 true false initSt =
        (Except.error PFail.persistFail,
          { initSt with pending := initSt.pending.erase 1
                        active := insert 1 initSt.active })) ∧
    ((5 : Int) ∈ ({ initSt with active := {5} } : BotSt).active ∧
      end_op 5 false { initSt with active := {5} } =
        (Except.error PFail.persistFail,
          { initSt with active := ({5} : Finset Int).erase 5 })) ∧
    ban_op 1 false true true initSt =
      (Except.error PFail.persistFail, initSt) ∧
    ban_op 1 true false true initSt =
      (Except.error PFail.persistFail,
        { initSt with banned := insert 1 initSt.banned
                      pending := initSt.pending.erase 1
                      active := initSt.active.erase 1 }) ∧
    ban_op 1 true true false initSt =
      (Except.error PFail.persistFail,
        { initSt with banned := insert 1 initSt.banned
                      pending := initSt.pending.erase 1
                      active := initSt.active.erase 1 }) :=
  ⟨⟨by decide, by decide, by decide,
    (c3_amended_memory_first initSt 1 true true).1
      (by decide) (by decide) (by decide)⟩,
   ⟨by decide,
    (c3_amended_memory_first { initSt with pending := {5} } 5 true
      true).2.1 (by decide)⟩,
   ⟨by decide,
    (c3_amended_memory_first initSt 1 true true).2.2.1 (by decide)⟩,
   ⟨by decide,
    (c3_amended_memory_first { initSt with active := {5} } 5 true
      true).2.2.2.1 (by decide)⟩,
   (c3_amended_memory_first initSt 1 true true).2.2.2.2.1,
   (c3_amended_memory_first initSt 1 true true).2.2.2.2.2.1,
   (c3_amended_memory_first initSt 1 true true).2.2.2.2.2.2⟩

/-- C4: against a destination that answers every delivery attempt
with a throttle signal, safe_copy terminates with the exhaustion
failure reported to the caller after exactly 4 provider attempts;
moreover no run of safe_copy ever makes more than 4 provider
calls. -/
theorem c4_retry_bound (acq : ℕ → Bool) (prov : ℕ → CopyOutcome)
    (ra : ℚ) (h : ∀ n, prov n = CopyOutcome.throttle ra) :
    (safe_copy acq prov 4).1 = Except.error CopyFail.exhausted ∧
    List.countP isProvCall (safe_copy acq prov 4).2 = 4 ∧
    ∀ (acq2 : ℕ → Bool) (prov2 : ℕ → CopyOutcome),
      List.countP isProvCall (safe_copy acq2 prov2 4).2 ≤ 4 :=
  ⟨(safe_copy_go_always_throttle acq prov 4 ra h 4 0).1,
   (safe_copy_go_always_throttle acq prov 4 ra h 4 0).2,
   fun acq2 prov2 => safe_copy_go_calls_le acq2 prov2 4 4 0⟩

/-- Witness for C4 at the provider that always throttles with a 0.1
second retry-after. -/
theorem c4_retry_bound_witness :
    (safe_copy (fun _ => true) (fun _ => CopyOutcome.throttle (1 / 10))
        4).1 = Except.error CopyFail.exhausted ∧
    List.countP isProvCall
      (safe_copy (fun _ => true) (fun _ => CopyOutcome.throttle (1 / 10))
        4).2 = 4 :=
  ⟨(c4_retry_bound (fun _ => true) (fun _ => CopyOutcome.throttle (1 / 10))
      (1 / 10) (fun _ => rfl)).1,
   (c4_retry_bound (fun _ => true) (fun _ => CopyOutcome.throttle (1 / 10))
      (1 / 10) (fun _ => rfl)).2.1⟩

/-- C5: for two distinct users forwarded to the same operator surface
under distinct delivered-message identities, resolving the first
user's delivered identity returns that user in either completion
order, and each successful forward records exactly one correlation
entry (a failed forward records none). -/
theorem c5_correlation_correctness (m : List (MsgKey × Int))
    (A B : Int) (kA kB : MsgKey) (copyRes : Int → Option MsgKey)
    (sender : Int) (admins : List Int) (s : BotSt)
    (hAB : A ≠ B) (hk : kA ≠ kB) :
    resolveMapping (recordMapping (recordMapping m kA A) kB B) kA =
      some A ∧
    resolveMapping (recordMapping (recordMapping m kA A) kB B) kA ≠
      some B ∧
    resolveMapping (recordMapping (recordMapping m kB B) kA A) kA =
      some A ∧
    resolveMapping (recordMapping (recordMapping m kB B) kA A) kA ≠
      some B ∧
    (relay_user_message copyRes sender admins s).2.adminMap.length =
      s.adminMap.length +
        (if (relay_user_message copyRes sender admins s).1 then 1
         else 0) := by
  have hkne : (kB == kA) = false := beq_eq_false_iff_ne.mpr (Ne.symm hk)
  have hkeq : (kA == kA) = true := beq_self_eq_true kA
  have h1 : resolveMapping (recordMapping (recordMapping m kA A) kB B)
      kA = some A := by
    simp [resolveMapping, recordMapping, List.find?, hkne, hkeq]
  have h2 : resolveMapping (recordMapping (recordMapping m kB B) kA A)
      kA = some A := by
    simp [resolveMapping, recordMapping, List.find?, hkeq]
  refine ⟨h1, ?_, h2, ?_, ?_⟩
  · rw [h1]
    intro hc
    exact hAB (Option.some.inj hc)
  · rw [h2]
    intro hc
    exact hAB (Option.some.inj hc)
  · induction admins with
    | nil => simp [relay_user_message]
    | cons a rest ih =>
        rcases hc : copyRes a with _ | k
        · simpa [relay_user_message, hc] using ih
        · simp [relay_user_message, hc, recordMapping]

/-- Witness for C5 at users 1 and 2 both forwarded to operator chat
10 with delivered message ids 1 and 2. -/
theorem c5_correlation_correctness_witness :
    resolveMapping
      (recordMapping (recordMapping [] (10, 1) 1) (10, 2) 2) (10, 1) =
      some 1 ∧
    resolveMapping
      (recordMapping (recordMapping [] (10, 1) 1) (10, 2) 2) (10, 1) ≠
      some 2 ∧
    resolveMapping
      (recordMapping (recordMapping [] (10, 2) 2) (10, 1) 1) (10, 1) =
      some 1 ∧
    resolveMapping
      (recordMapping (recordMapping [] (10, 2) 2) (10, 1) 1) (10, 1) ≠
      some 2 ∧
    (relay_user_message (fun _ => some (10, 1)) 1 [99] initSt).2.adminMap.length =
      initSt.adminMap.length +
        (if (relay_user_message (fun _ => some (10, 1)) 1 [99] initSt).1
         then 1 else 0) :=
  c5_correlation_correctness [] 1 2 (10, 1) (10, 2)
    (fun _ => some (10, 1)) 1 [99] initSt (by decide) (by decide)

/-- C6 counterexample: the sleep applied before proceeding when the
token bucket is exhausted is 0.2 + 0.1 x attempt, which is an
arithmetic progression, not a geometric one, so the backoff is
linear and not exponential as the claim states. -/
theorem c6_counterexample :
    backoff 1 * backoff 1 ≠ backoff 0 * backoff 2 ∧
    backoff 1 - backoff 0 = backoff 2 - backoff 1 := by
  constructor <;> norm_num [backoff]

/-- C6 amended: in every attempt in which the rate-limiter
acquisition returns false, safe_copy still proceeds to the provider
delivery call, after first applying a small linear backoff sleep of
0.2 + 0.1 x attempt seconds (the increment per attempt is a constant
0.1 seconds). -/
theorem c6_amended_proceed_after_linear_backoff (acq : ℕ → Bool)
    (prov : ℕ → CopyOutcome) (retries attempt r : ℕ)
    (h : acq attempt = false) :
    (∃ rest, (safe_copy_go acq prov retries attempt (r + 1)).2 =
        Ev.sleepEv (backoff attempt) :: Ev.provCall :: rest) ∧
    backoff (attempt + 1) - backoff attempt = 1 / 10 := by
  constructor
  · cases hp : prov attempt with
    | delivered c m => exact ⟨[], by simp [safe_copy_go, h, hp]⟩
    | throttle ra =>
        exact ⟨Ev.sleepEv (ra + 1 / 2) ::
            (safe_copy_go acq prov retries (attempt + 1) r).2,
          by simp [safe_copy_go, h, hp]⟩
    | telegramErr =>
        by_cases he : attempt = retries - 1
        · refine ⟨[], ?_⟩
          simp only [safe_copy_go, hp]
          rw [if_pos he]
          simp [h]
        · refine ⟨Ev.sleepEv (backoff attempt) ::
              (safe_copy_go acq prov retries (attempt + 1) r).2, ?_⟩
          simp only [safe_copy_go, hp]
          rw [if_neg he]
          simp [h]
  · simp only [backoff, Nat.cast_add, Nat.cast_one]
    ring

/-- Witness for C6-amended at attempt 0 with an acquisition oracle
that always fails. -/
theorem c6_amended_proceed_after_linear_backoff_witness :
    (∃ rest,
      (safe_copy_go (fun _ => false)
          (fun _ => CopyOutcome.delivered 0 0) 4 0 (3 + 1)).2 =
        Ev.sleepEv (backoff 0) :: Ev.provCall :: rest) ∧
    backoff (0 + 1) - backoff 0 = 1 / 10 :=
  c6_amended_proceed_after_linear_backoff (fun _ => false)
    (fun _ => CopyOutcome.delivered 0 0) 4 0 3 rfl

/-- C7: the refill either leaves the bucket untouched (when less than
one whole token worth of time elapsed) or adds the floor of
elapsed x fill-rate tokens capped at the capacity while advancing
the last-refill timestamp; the token count never exceeds the
capacity, and the timestamp advances only when at least one whole
token was added. -/
theorem c7_refill_spec (b : Bucket) (now : ℚ) :
    refill_bucket b now =
      (if 1 ≤ (now - b.last) * COPY_BUCKET_FILL_RATE then
        { tokens := min COPY_BUCKET_CAPACITY
            (b.tokens + ⌊(now - b.last) * COPY_BUCKET_FILL_RATE⌋)
          last := now }
      else b) ∧
    (b.tokens ≤ COPY_BUCKET_CAPACITY →
      (refill_bucket b now).tokens ≤ COPY_BUCKET_CAPACITY) ∧
    ((refill_bucket b now).last ≠ b.last →
      1 ≤ ⌊(now - b.last) * COPY_BUCKET_FILL_RATE⌋) := by
  by_cases h1 : now - b.last ≤ 0
  · have hnot : ¬ 1 ≤ (now - b.last) * COPY_BUCKET_FILL_RATE := by
      rw [COPY_BUCKET_FILL_RATE]
      nlinarith
    simp only [refill_bucket, if_pos h1, if_neg hnot]
    exact ⟨trivial, fun h => h, fun h => absurd rfl h⟩
  · by_cases h2 : 1 ≤ (now - b.last) * COPY_BUCKET_FILL_RATE
    · simp only [refill_bucket, if_neg h1, if_pos h2]
      exact ⟨trivial, fun _ => min_le_left _ _,
        fun _ => Int.le_floor.mpr (by exact_mod_cast h2)⟩
    · simp only [refill_bucket, if_neg h1, if_neg h2]
      exact ⟨trivial, fun h => h, fun h => absurd rfl h⟩

/-- Witness for C7 at a bucket holding 2 tokens last refilled at time
0, refilled at time 0.5: 2 whole tokens are added and the timestamp
advances. -/
theorem c7_refill_spec_witness :
    ((2 : Int) ≤ COPY_BUCKET_CAPACITY ∧
      (refill_bucket ⟨2, 0⟩ (1 / 2)).tokens ≤ COPY_BUCKET_CAPACITY) ∧
    ((refill_bucket ⟨2, 0⟩ (1 / 2)).last ≠ (Bucket.mk 2 0).last ∧
      (1 : Int) ≤ ⌊((1 / 2 : ℚ) - (Bucket.mk 2 0).last) *
        COPY_BUCKET_FILL_RATE⌋) := by
  obtain ⟨he, hcap, hadv⟩ := c7_refill_spec ⟨2, 0⟩ (1 / 2)
  have hcond : (1 : ℚ) ≤ ((1 / 2 : ℚ) - (Bucket.mk 2 0).last) *
      COPY_BUCKET_FILL_RATE := by
    norm_num [COPY_BUCKET_FILL_RATE]
  have hlast : (refill_bucket ⟨2, 0⟩ (1 / 2)).last = 1 / 2 := by
    rw [he, if_pos hcond]
  have hne : (refill_bucket ⟨2, 0⟩ (1 / 2)).last ≠ (Bucket.mk 2 0).last := by
    rw [hlast]
    norm_num
  exact ⟨⟨by decide, hcap (by decide)⟩, hne, hadv hne⟩

/-- C8: cancelling a request of a user who is not pending reports
not-pending and mutates nothing, and for a pending user two cancels
in a row yield canceled then not-pending. -/
theorem c8_cancel_idempotent (s : BotSt) (u : Int) :
    (u ∉ s.pending →
      user_cancel u true s = (Except.ok RegResp.notPending, s)) ∧
    (u ∈ s.pending →
      user_cancel u true s =
        (Except.ok RegResp.canceled,
          { s with pending := s.pending.erase u }) ∧
      user_cancel u true { s with pending := s.pending.erase u } =
        (Except.ok RegResp.notPending,
          { s with pending := s.pending.erase u })) := by
  constructor
  · intro hp
    simp [user_cancel, hp]
  · intro hp
    constructor
    · simp [user_cancel, hp]
    · simp [user_cancel, Finset.not_mem_erase]

/-- Witness for C8: user 7 is not pending and gets not-pending with
no mutation; user 5 is pending and two cancels in a row yield
canceled then not-pending. -/
theorem c8_cancel_idempotent_witness :
    ((7 : Int) ∉ ({ initSt with pending := {5} } : BotSt).pending ∧
      user_cancel 7 true { initSt with pending := {5} } =
        (Except.ok RegResp.notPending,
          { initSt with pending := {5} })) ∧
    ((5 : Int) ∈ ({ initSt with pending := {5} } : BotSt).pending ∧
      user_cancel 5 true { initSt with pending := {5} } =
        (Except.ok RegResp.canceled,
          { initSt with pending := ({5} : Finset Int).erase 5 }) ∧
      user_cancel 5 true
          { initSt with pending := ({5} : Finset Int).erase 5 } =
        (Except.ok RegResp.notPending,
          { initSt with pending := ({5} : Finset Int).erase 5 })) :=
  ⟨⟨by decide, (c8_cancel_idempotent { initSt with pending := {5} } 7).1
      (by decide)⟩,
   ⟨by decide, (c8_cancel_idempotent { initSt with pending := {5} } 5).2
      (by decide)⟩⟩

/-- C9: a caller who is not an operator (numeric id not registered
and username not configured) gets no reply from any operator command
and the state is left unchanged. -/
theorem c9_nonadmin_commands_noop (s : BotSt) (uid : Int)
    (uname : Option String) (cmd : AdminCmd)
    (h : is_admin_update s uid uname = false) :
    runAdminCmd uid uname cmd s = (s, 0) := by
  simp [runAdminCmd, h]

/-- Witness for C9 at caller 42 with no username invoking the list
command on the initial state. -/
theorem c9_nonadmin_commands_noop_witness :
    is_admin_update initSt 42 none = false ∧
    runAdminCmd 42 none AdminCmd.listCmd initSt = (initSt, 0) :=
  ⟨by decide,
   c9_nonadmin_commands_noop initSt 42 none AdminCmd.listCmd (by decide)⟩

/-- C10: banning a user and ending a session leave the correlation
table unchanged, and the admin-reply routing decision (which user a
reply to a previously forwarded message is forwarded to) is the same
before and after the ban or session end. -/
theorem c10_ban_end_preserve_correlation (s : BotSt) (u : Int)
    (ok1 ok2 ok3 ok : Bool) (k : MsgKey) (cOk : Bool) (cid : Int) :
    (ban_op u ok1 ok2 ok3 s).2.adminMap = s.adminMap ∧
    (end_op u ok s).2.adminMap = s.adminMap ∧
    (relay_admin_reply (ban_op u ok1 ok2 ok3 s).2 k cOk cid).1 =
      (relay_admin_reply s k cOk cid).1 ∧
    (relay_admin_reply (end_op u ok s).2 k cOk cid).1 =
      (relay_admin_reply s k cOk cid).1 := by
  have hban : (ban_op u ok1 ok2 ok3 s).2.adminMap = s.adminMap := by
    simp only [ban_op]
    split_ifs <;> rfl
  have hend : (end_op u ok s).2.adminMap = s.adminMap := by
    simp only [end_op]
    split_ifs <;> rfl
  refine ⟨hban, hend, ?_, ?_⟩
  · rw [relay_admin_reply_fst, relay_admin_reply_fst, hban]
  · rw [relay_admin_reply_fst, relay_admin_reply_fst, hend]
